import Mathlib

/-!
Verification development for the peerchat repository.

The definitions below are shallow embeddings of the Go source:
  - chat.go  : ChatMessage, JoinChatRoom, PubLoop, SubLoop, Exit, UpdateRoom
  - ui.go    : the /room command handler of UI.handlecommand
  - p2p.go   : the bootstrap-peer fan-out of NewP2P / P2PHost.Bootstrap and
               the service content-identifier computation of Provide / Connect2

Peer identifiers are modelled by their Base58 string form, so peer.ID.Pretty
is the identity on the model. Channels consumed by a loop are modelled as the
finite list of results the loop observes, one per iteration; shared mutable
state touched by several goroutines is modelled with an explicit interleaving
semantics.
-/

namespace Peerchat

/-- A UI log record. Embeds the uilog/chatlog struct of chat.go: the Go field
logprefix is rendered here as logpre. -/
structure uilog where
  logpre : String
  logmsg : String
deriving DecidableEq, Repr

/-- Embeds the ChatMessage struct of chat.go, JSON keys
message / senderid / sendername. -/
structure ChatMessage where
  Message : String
  SenderID : String
  SenderName : String
deriving DecidableEq, Repr

/-- A wire payload carried by the pubsub substrate. A byte string either is
the JSON document produced by serializing a ChatMessage record (field order
message, senderid, sendername), or it is not; encoding/json is injective on
this record type, so well-formed payloads are represented by the decoded
field values and all other byte strings by the malformed constructor. -/
inductive WireData where
  | chatJson (message senderid sendername : String)
  | malformed (raw : String)
deriving DecidableEq, Repr

/-- Embeds json.Marshal applied to a ChatMessage in PubLoop. -/
def jsonMarshal (m : ChatMessage) : WireData :=
  WireData.chatJson m.Message m.SenderID m.SenderName

/-- Embeds json.Unmarshal of a received payload into a ChatMessage in SubLoop. -/
def jsonUnmarshal : WireData → Option ChatMessage
  | WireData.chatJson m i n => some ⟨m, i, n⟩
  | WireData.malformed _ => none

/-- A message returned by subscription.Next: the pubsub-level sender identity
and the raw payload bytes. Embeds pubsub.Message as used in SubLoop. -/
structure PubsubMessage where
  ReceivedFrom : String
  Data : WireData
deriving DecidableEq, Repr

/-- What one iteration of SubLoop observes: the context cancellation branch of
the select, or the result of subscription.Next (a message, or an error when
the subscription has closed). -/
inductive SubEvent where
  | cancel
  | next (m : PubsubMessage)
  | nextErr
deriving DecidableEq, Repr

/-- How a (finite prefix of a) SubLoop run ended. -/
inductive SubExit where
  | running
  | cancelled
  | subClosed
deriving DecidableEq, Repr

/-- The observable outcome of running SubLoop on a finite event list. -/
structure SubLoopResult where
  delivered : List ChatMessage
  logs : List uilog
  messagesClosed : Bool
  exit : SubExit
deriving DecidableEq, Repr

def isDeliveryEvent : SubEvent → Bool
  | SubEvent.next _ => true
  | _ => false

/-- Embeds ChatRoom.SubLoop of chat.go, iteration by iteration:
on the cancellation branch the loop returns; on a Next error it closes the
Messages channel, logs a suberr entry and returns; a message received from
SelfID is dropped; a payload that fails to unmarshal is logged and skipped;
otherwise the decoded ChatMessage is sent into the Messages channel. -/
def runSubLoop (sid : String) : List SubEvent → SubLoopResult
  | [] => ⟨[], [], false, SubExit.running⟩
  | SubEvent.cancel :: _ => ⟨[], [], false, SubExit.cancelled⟩
  | SubEvent.nextErr :: _ =>
      ⟨[], [⟨"suberr", "subscription has closed"⟩], true, SubExit.subClosed⟩
  | SubEvent.next m :: rest =>
      if m.ReceivedFrom = sid then
        runSubLoop sid rest
      else
        match jsonUnmarshal m.Data with
        | none =>
            let r := runSubLoop sid rest
            ⟨r.delivered, ⟨"suberr", "could not unmarshal JSON"⟩ :: r.logs,
             r.messagesClosed, r.exit⟩
        | some cm =>
            let r := runSubLoop sid rest
            ⟨cm :: r.delivered, r.logs, r.messagesClosed, r.exit⟩

/-- What one iteration of PubLoop observes: the context cancellation branch of
the select, or a message string drained from the PublishQueue. -/
inductive PubEvent where
  | cancel
  | msg (s : String)
deriving DecidableEq, Repr

inductive PubExit where
  | running
  | cancelled
deriving DecidableEq, Repr

/-- Outcomes of the substrate calls made by PubLoop: whether json.Marshal
succeeds on a given record and whether pstopic.Publish succeeds on given
bytes. -/
structure PubEnv where
  marshalOk : ChatMessage → Bool
  publishOk : WireData → Bool

/-- The observable outcome of running PubLoop on a finite event list. -/
structure PubLoopResult where
  published : List WireData
  logs : List uilog
  exit : PubExit
deriving DecidableEq, Repr

def isMsgEvent : PubEvent → Bool
  | PubEvent.msg _ => true
  | _ => false

/-- Embeds ChatRoom.PubLoop of chat.go, iteration by iteration: each drained
string is stamped into a ChatMessage with SenderID = SelfID.Pretty() and
SenderName = UserName; a marshal failure logs a puberr entry and continues;
a publish failure logs a puberr entry and continues; otherwise the marshalled
bytes are published to the topic. -/
def runPubLoop (env : PubEnv) (sid un : String) : List PubEvent → PubLoopResult
  | [] => ⟨[], [], PubExit.running⟩
  | PubEvent.cancel :: _ => ⟨[], [], PubExit.cancelled⟩
  | PubEvent.msg s :: rest =>
      let m : ChatMessage := ⟨s, sid, un⟩
      if env.marshalOk m then
        if env.publishOk (jsonMarshal m) then
          let r := runPubLoop env sid un rest
          ⟨jsonMarshal m :: r.published, r.logs, r.exit⟩
        else
          let r := runPubLoop env sid un rest
          ⟨r.published, ⟨"puberr", "could not publish to topic"⟩ :: r.logs, r.exit⟩
      else
        let r := runPubLoop env sid un rest
        ⟨r.published, ⟨"puberr", "could not marshal JSON"⟩ :: r.logs, r.exit⟩

/-- Outcomes of the pubsub-router calls made when joining a room: whether
ps.Join succeeds on a given topic name and whether topic.Subscribe succeeds
on a given (joined) topic. -/
structure PubSubRouter where
  joinOk : String → Bool
  subscribeOk : String → Bool

/-- The default user name substituted in JoinChatRoom (chat.go). -/
def defaultuser : String := "newuser"

/-- The default room name substituted in JoinChatRoom (chat.go). -/
def defaultroom : String := "lobby"

/-- The topic name passed to ps.Join by JoinChatRoom:
fmt.Sprintf of room-peerchat-%s applied to the raw roomname argument. -/
def topicNameFor (roomname : String) : String := "room-peerchat-" ++ roomname

/-- The fields of the ChatRoom record built by JoinChatRoom that the claims
talk about: the displayed room and user names, the local identity, and the
name of the pubsub topic actually joined. -/
structure ChatRoomRec where
  RoomName : String
  UserName : String
  SelfID : String
  pstopic : String
deriving DecidableEq, Repr

/-- Embeds JoinChatRoom of chat.go: join the topic named from the RAW
roomname argument, check the error; subscribe, check the error; only then
substitute the defaults for empty username/roomname and build the ChatRoom. -/
def JoinChatRoom (ps : PubSubRouter) (sid un rn : String) : Option ChatRoomRec :=
  let topic := topicNameFor rn
  if ps.joinOk topic then
    if ps.subscribeOk topic then
      some ⟨if rn = "" then defaultroom else rn,
            if un = "" then defaultuser else un,
            sid, topic⟩
    else none
  else none

/-- The externally observable actions performed, in program order, by the
/room branch of UI.handlecommand (ui.go) together with the calls it makes
into JoinChatRoom and ChatRoom.Exit (chat.go). -/
inductive SwitchAction where
  | logEntry (kind msg : String)
  | joinNewTopic (topic : String)
  | subscribeNew (topic : String)
  | startNewLoops
  | swapCurrent
  | graceSleep
  | cancelOldSubscription
  | closeOldTopic
  | cancelOldContext
  | clearMessageBox
  | setTitle (t : String)
deriving DecidableEq, Repr

/-- Embeds the /room case of UI.handlecommand (ui.go). An empty argument is
rejected with a badcmd log. Otherwise the handler logs the room change and
calls JoinChatRoom (topic join, then subscribe; on either failing a jumperr
log is emitted and the handler returns, touching nothing else). On success
JoinChatRoom starts the new loops, the handler assigns the new chat room to
ui.ChatRoom (the swap), sleeps one second, then calls oldchatroom.Exit which
cancels the old subscription, closes the old topic and finally (deferred)
cancels the old context; the handler then clears the message box and resets
its title. The Go code formats the roomchange log with the room name in
single quotes; the quotes are omitted here. -/
def handleRoomCommand (ps : PubSubRouter) (arg : String) : List SwitchAction :=
  if arg = "" then
    [SwitchAction.logEntry "badcmd" "missing room name for command"]
  else
    SwitchAction.logEntry "roomchange" ("joining new room " ++ arg) ::
    (if ps.joinOk (topicNameFor arg) then
       if ps.subscribeOk (topicNameFor arg) then
         [SwitchAction.joinNewTopic (topicNameFor arg),
          SwitchAction.subscribeNew (topicNameFor arg),
          SwitchAction.startNewLoops,
          SwitchAction.swapCurrent,
          SwitchAction.graceSleep,
          SwitchAction.cancelOldSubscription,
          SwitchAction.closeOldTopic,
          SwitchAction.cancelOldContext,
          SwitchAction.clearMessageBox,
          SwitchAction.setTitle ("ChatRoom-" ++ arg)]
       else
         [SwitchAction.joinNewTopic (topicNameFor arg),
          SwitchAction.subscribeNew (topicNameFor arg),
          SwitchAction.logEntry "jumperr" "could not change chat room"]
     else
       [SwitchAction.joinNewTopic (topicNameFor arg),
        SwitchAction.logEntry "jumperr" "could not change chat room"])

/-- Index of the first occurrence of an action in a trace (length if absent). -/
def firstIdx (a : SwitchAction) : List SwitchAction → Nat
  | [] => 0
  | b :: bs => if a = b then 0 else firstIdx a bs + 1

/-- The actions performed, in program order, by ChatRoom.UpdateRoom in the
revision of chat.go that switches rooms in place. -/
inductive URAction where
  | termPubLoop
  | termSubLoop
  | cancelSubscription
  | joinTopic (name : String)
  | subscribeTopic
  | assignFields
  | startLoops
deriving DecidableEq, Repr

/-- Embeds ChatRoom.UpdateRoom (chat.go, in-place revision). It first sends
on PubTermQueue and SubTermQueue (terminating both loops) and cancels the
existing subscription; only then does it attempt to join the new topic (note:
the raw roomname, no room-peerchat- prefix in this revision) and subscribe.
The Bool result is true when an error is returned to the caller. -/
def UpdateRoom (ps : PubSubRouter) (rn : String) : List URAction × Bool :=
  let teardown := [URAction.termPubLoop, URAction.termSubLoop,
                   URAction.cancelSubscription]
  if ps.joinOk rn then
    if ps.subscribeOk rn then
      (teardown ++ [URAction.joinTopic rn, URAction.subscribeTopic,
                    URAction.assignFields, URAction.startLoops], false)
    else
      (teardown ++ [URAction.joinTopic rn, URAction.subscribeTopic], true)
  else
    (teardown ++ [URAction.joinTopic rn], true)

/-- A router on which every join and subscribe succeeds. -/
def allOkPS : PubSubRouter := ⟨fun _ => true, fun _ => true⟩

/-- A router on which every topic join fails. -/
def noJoinPS : PubSubRouter := ⟨fun _ => false, fun _ => true⟩

/-!
Bootstrap-peer fan-out of NewP2P / P2PHost.Bootstrap (p2p.go). Each seed peer
gets its own goroutine; on a failed connect the goroutine executes
totalbootpeers++, on a successful connect connectedbootpeers++ followed by
totalbootpeers++. The counters are plain shared ints with no synchronization,
so each ++ is a read followed by a write of read+1 and goroutine steps may
interleave between them. A schedule is the list of goroutine indices in the
order their primitive steps run.
-/

/-- One primitive step of a bootstrap goroutine: a read or a write of one of
the two shared counters. -/
inductive RaceOp where
  | readConn
  | writeConn
  | readTot
  | writeTot
deriving DecidableEq, Repr

/-- The step sequence of one bootstrap goroutine, by connect outcome. -/
def gprogram (connectOk : Bool) : List RaceOp :=
  if connectOk then
    [RaceOp.readConn, RaceOp.writeConn, RaceOp.readTot, RaceOp.writeTot]
  else
    [RaceOp.readTot, RaceOp.writeTot]

/-- A bootstrap goroutine: its remaining steps and the register values it
has read from each counter. -/
structure BootGoroutine where
  rem : List RaceOp
  localConn : Nat
  localTot : Nat
deriving DecidableEq, Repr

/-- Shared counters plus the per-goroutine states. -/
structure BootState where
  connected : Nat
  total : Nat
  gs : List BootGoroutine
deriving DecidableEq, Repr

/-- Execute the next primitive step of goroutine g (no effect if g is done
or out of range). -/
def raceStep (s : BootState) (g : Nat) : BootState :=
  match s.gs.get? g with
  | none => s
  | some gor =>
    match gor.rem with
    | [] => s
    | op :: rest =>
      match op with
      | RaceOp.readConn =>
          ⟨s.connected, s.total, s.gs.set g ⟨rest, s.connected, gor.localTot⟩⟩
      | RaceOp.writeConn =>
          ⟨gor.localConn + 1, s.total, s.gs.set g ⟨rest, gor.localConn, gor.localTot⟩⟩
      | RaceOp.readTot =>
          ⟨s.connected, s.total, s.gs.set g ⟨rest, gor.localConn, s.total⟩⟩
      | RaceOp.writeTot =>
          ⟨s.connected, gor.localTot + 1, s.gs.set g ⟨rest, gor.localConn, gor.localTot⟩⟩

/-- Run a whole schedule of goroutine steps. -/
def raceRun (s : BootState) : List Nat → BootState
  | [] => s
  | g :: sched => raceRun (raceStep s g) sched

/-- The initial state for a seed-peer list with the given connect outcomes:
both counters zero, one goroutine per seed peer. -/
def initBoot (outcomes : List Bool) : BootState :=
  ⟨0, 0, outcomes.map (fun b => ⟨gprogram b, 0, 0⟩)⟩

/-- The number K of reachable seed peers among the outcomes. -/
def countReachable (outcomes : List Bool) : Nat :=
  (outcomes.filter (fun b => b)).length

/-!
Service advertisement identifier (p2p.go). Both P2PHost.Provide and
P2P.Connect2 hash the compiled-in service name with SHA-256, prepend the
codec byte 0x12 and the digest-size byte 0x20, Base58-encode the result,
decode that string back into a multihash, and wrap it in a version-1 CID
with codec 12. SHA-256 itself lives in the Go standard library, outside this
repository, so it is a parameter here; bytes are Nat values below 256.
-/

/-- The Base58 (Bitcoin) alphabet used by mr-tron/base58. -/
def base58Alphabet : List Char :=
  "123456789ABCDEFGHJKLMNPQRSTUVWXYZabcdefghijkmnopqrstuvwxyz".toList

/-- Big-endian byte list to Nat. -/
def bytesToNat (bs : List Nat) : Nat :=
  bs.foldl (fun a b => a * 256 + b) 0

/-- Base-58 digits of a Nat, most significant first. -/
def natToB58 (n : Nat) : List Nat :=
  if h : n = 0 then []
  else natToB58 (n / 58) ++ [n % 58]
decreasing_by exact Nat.div_lt_self (Nat.pos_of_ne_zero h) (by decide)

/-- Base-256 digits of a Nat, most significant first. -/
def natToBytes (n : Nat) : List Nat :=
  if h : n = 0 then []
  else natToBytes (n / 256) ++ [n % 256]
decreasing_by exact Nat.div_lt_self (Nat.pos_of_ne_zero h) (by decide)

/-- Base58-encode a byte list: leading zero bytes become leading 1 digits,
the rest is the base-58 expansion of the value. -/
def base58Encode (bs : List Nat) : String :=
  let zeros := (bs.takeWhile (fun b => b == 0)).length
  let digits := natToB58 (bytesToNat bs)
  String.mk (List.replicate zeros '1' ++
             digits.map (fun d => base58Alphabet.getD d '1'))

/-- Value of a Base58 digit character, none for a character outside the
alphabet. -/
def b58CharVal (c : Char) : Option Nat :=
  let i := base58Alphabet.indexOf c
  if i < base58Alphabet.length then some i else none

/-- Base58-decode a string back into a byte list; none on an invalid
character. Embeds multihash.FromB58String as used in Provide/Connect2. -/
def base58Decode (s : String) : Option (List Nat) :=
  match s.toList.mapM b58CharVal with
  | none => none
  | some vals =>
      let zeros := (s.toList.takeWhile (fun c => c == '1')).length
      let n := vals.foldl (fun a v => a * 58 + v) 0
      some (List.replicate zeros 0 ++ natToBytes n)

/-- A content identifier as built by cid.NewCidV1. -/
structure Cid where
  version : Nat
  codec : Nat
  mhash : List Nat
deriving DecidableEq, Repr

/-- UTF-8 bytes of a string, as Nat values. -/
def strBytes (s : String) : List Nat :=
  s.toUTF8.toList.map (fun b => b.toNat)

/-- The identifier pipeline shared by Provide and Connect2 (p2p.go):
SHA-256 of the service name, prefixed with 0x12 0x20, Base58-encoded,
decoded into a multihash and wrapped in a version-1 CID with codec 12.
The hash parameter stands for sha256.Sum256. -/
def advertisementID (hash : List Nat → List Nat) (svc : String) : Option Cid :=
  let finalhash := 0x12 :: 0x20 :: hash (strBytes svc)
  let b58 := base58Encode finalhash
  match base58Decode b58 with
  | none => none
  | some mh => some ⟨1, 12, mh⟩

/-- The compiled-in service name constant of p2p.go (named service in the
revision containing Connect2). -/
def service : String := "manishmeganathan/peerchat"

/-- The compiled-in service name constant of p2p.go (named serviceCID in the
revision containing Provide). -/
def serviceCID : String := "manishmeganathan/peerchat"

/-- The node-local state visible to Provide/Connect2 besides the service
name; the identifier computation must not depend on it. -/
structure HostState where
  hostID : String
deriving DecidableEq, Repr

/-- The CID computed by P2PHost.Provide on a given node. -/
def provideCID (hash : List Nat → List Nat) (_host : HostState) : Option Cid :=
  advertisementID hash serviceCID

/-- The CID computed by P2P.Connect2 on a given node. -/
def connect2CID (hash : List Nat → List Nat) (_host : HostState) : Option Cid :=
  advertisementID hash service

/-!
Helper lemmas about the loop semantics, shared by the claim theorems below.
-/

theorem runSubLoop_closed_iff (sid : String) :
    ∀ evs : List SubEvent,
      (runSubLoop sid evs).messagesClosed = true ↔
        (runSubLoop sid evs).exit = SubExit.subClosed := by
  intro evs
  induction evs with
  | nil => simp [runSubLoop]
  | cons e rest ih =>
    cases e with
    | cancel => simp [runSubLoop]
    | nextErr => simp [runSubLoop]
    | next m =>
      simp only [runSubLoop]
      split
      · exact ih
      · cases hjs : jsonUnmarshal m.Data <;> simpa [hjs] using ih

theorem runSubLoop_subClosed_mem (sid : String) :
    ∀ evs : List SubEvent,
      (runSubLoop sid evs).exit = SubExit.subClosed → SubEvent.nextErr ∈ evs := by
  intro evs
  induction evs with
  | nil => intro h; simp [runSubLoop] at h
  | cons e rest ih =>
    cases e with
    | cancel => intro h; simp [runSubLoop] at h
    | nextErr => intro _; exact List.mem_cons_self _ _
    | next m =>
      simp only [runSubLoop]
      split
      · intro h; exact List.mem_cons_of_mem _ (ih h)
      · cases hjs : jsonUnmarshal m.Data <;>
          · simp only [hjs]
            intro h
            exact List.mem_cons_of_mem _ (ih h)

theorem runSubLoop_cancelled_mem (sid : String) :
    ∀ evs : List SubEvent,
      (runSubLoop sid evs).exit = SubExit.cancelled → SubEvent.cancel ∈ evs := by
  intro evs
  induction evs with
  | nil => intro h; simp [runSubLoop] at h
  | cons e rest ih =>
    cases e with
    | cancel => intro _; exact List.mem_cons_self _ _
    | nextErr => intro h; simp [runSubLoop] at h
    | next m =>
      simp only [runSubLoop]
      split
      · intro h; exact List.mem_cons_of_mem _ (ih h)
      · cases hjs : jsonUnmarshal m.Data <;>
          · simp only [hjs]
            intro h
            exact List.mem_cons_of_mem _ (ih h)

theorem runSubLoop_err_after (sid : String) (post : List SubEvent) :
    ∀ pre : List SubEvent, pre.all isDeliveryEvent = true →
      (runSubLoop sid (pre ++ SubEvent.nextErr :: post)).exit = SubExit.subClosed
      ∧ (runSubLoop sid (pre ++ SubEvent.nextErr :: post)).messagesClosed = true
      ∧ uilog.mk "suberr" "subscription has closed"
          ∈ (runSubLoop sid (pre ++ SubEvent.nextErr :: post)).logs := by
  intro pre
  induction pre with
  | nil => intro _; simp [runSubLoop]
  | cons e rest ih =>
    intro hall
    cases e with
    | cancel => simp [isDeliveryEvent] at hall
    | nextErr => simp [isDeliveryEvent] at hall
    | next m =>
      have hrest : rest.all isDeliveryEvent = true := by
        simpa [List.all_cons, isDeliveryEvent] using hall
      have ih' := ih hrest
      simp only [List.cons_append, runSubLoop]
      split
      · exact ih'
      · cases hjs : jsonUnmarshal m.Data with
        | none =>
            simp only [hjs]
            exact ⟨ih'.1, ih'.2.1, List.mem_cons_of_mem _ ih'.2.2⟩
        | some cm =>
            simp only [hjs]
            exact ⟨ih'.1, ih'.2.1, ih'.2.2⟩

theorem runPubLoop_insert_marshalfail (env : PubEnv) (sid un s : String)
    (ys : List PubEvent) (hno : env.marshalOk ⟨s, sid, un⟩ = false) :
    ∀ xs : List PubEvent, xs.all isMsgEvent = true →
      (runPubLoop env sid un (xs ++ PubEvent.msg s :: ys)).published
        = (runPubLoop env sid un (xs ++ ys)).published
      ∧ (runPubLoop env sid un (xs ++ PubEvent.msg s :: ys)).exit
        = (runPubLoop env sid un (xs ++ ys)).exit
      ∧ uilog.mk "puberr" "could not marshal JSON"
          ∈ (runPubLoop env sid un (xs ++ PubEvent.msg s :: ys)).logs := by
  intro xs
  induction xs with
  | nil => intro _; simp [runPubLoop, hno]
  | cons e rest ih =>
    intro hall
    cases e with
    | cancel => simp [isMsgEvent] at hall
    | msg t =>
      have hrest : rest.all isMsgEvent = true := by
        simpa [List.all_cons, isMsgEvent] using hall
      have ih' := ih hrest
      simp only [List.cons_append, runPubLoop]
      split
      · split
        · exact ⟨congrArg (fun l => jsonMarshal ⟨t, sid, un⟩ :: l) ih'.1,
                 ih'.2.1, ih'.2.2⟩
        · exact ⟨ih'.1, ih'.2.1, List.mem_cons_of_mem _ ih'.2.2⟩
      · exact ⟨ih'.1, ih'.2.1, List.mem_cons_of_mem _ ih'.2.2⟩

theorem runPubLoop_insert_pubfail (env : PubEnv) (sid un s : String)
    (ys : List PubEvent) (hm : env.marshalOk ⟨s, sid, un⟩ = true)
    (hp : env.publishOk (jsonMarshal ⟨s, sid, un⟩) = false) :
    ∀ xs : List PubEvent, xs.all isMsgEvent = true →
      (runPubLoop env sid un (xs ++ PubEvent.msg s :: ys)).published
        = (runPubLoop env sid un (xs ++ ys)).published
      ∧ (runPubLoop env sid un (xs ++ PubEvent.msg s :: ys)).exit
        = (runPubLoop env sid un (xs ++ ys)).exit
      ∧ uilog.mk "puberr" "could not publish to topic"
          ∈ (runPubLoop env sid un (xs ++ PubEvent.msg s :: ys)).logs := by
  intro xs
  induction xs with
  | nil => intro _; simp [runPubLoop, hm, hp]
  | cons e rest ih =>
    intro hall
    cases e with
    | cancel => simp [isMsgEvent] at hall
    | msg t =>
      have hrest : rest.all isMsgEvent = true := by
        simpa [List.all_cons, isMsgEvent] using hall
      have ih' := ih hrest
      simp only [List.cons_append, runPubLoop]
      split
      · split
        · exact ⟨congrArg (fun l => jsonMarshal ⟨t, sid, un⟩ :: l) ih'.1,
                 ih'.2.1, ih'.2.2⟩
        · exact ⟨ih'.1, ih'.2.1, List.mem_cons_of_mem _ ih'.2.2⟩
      · exact ⟨ih'.1, ih'.2.1, List.mem_cons_of_mem _ ih'.2.2⟩

theorem runSubLoop_insert_malformed (sid sender raw : String)
    (post : List SubEvent) (hsender : sender ≠ sid) :
    ∀ pre : List SubEvent, pre.all isDeliveryEvent = true →
      (runSubLoop sid (pre ++ SubEvent.next ⟨sender, WireData.malformed raw⟩ :: post)).delivered
        = (runSubLoop sid (pre ++ post)).delivered
      ∧ (runSubLoop sid (pre ++ SubEvent.next ⟨sender, WireData.malformed raw⟩ :: post)).exit
        = (runSubLoop sid (pre ++ post)).exit
      ∧ uilog.mk "suberr" "could not unmarshal JSON"
          ∈ (runSubLoop sid (pre ++ SubEvent.next ⟨sender, WireData.malformed raw⟩ :: post)).logs := by
  intro pre
  induction pre with
  | nil => intro _; simp [runSubLoop, hsender, jsonUnmarshal]
  | cons e rest ih =>
    intro hall
    cases e with
    | cancel => simp [isDeliveryEvent] at hall
    | nextErr => simp [isDeliveryEvent] at hall
    | next m =>
      have hrest : rest.all isDeliveryEvent = true := by
        simpa [List.all_cons, isDeliveryEvent] using hall
      have ih' := ih hrest
      simp only [List.cons_append, runSubLoop]
      split
      · exact ih'
      · cases hjs : jsonUnmarshal m.Data with
        | none =>
            simp only [hjs]
            exact ⟨ih'.1, ih'.2.1, List.mem_cons_of_mem _ ih'.2.2⟩
        | some cm =>
            simp only [hjs]
            exact ⟨congrArg (fun l => cm :: l) ih'.1, ih'.2.1, ih'.2.2⟩

/-!
Claim theorems.
-/

/-- C1 counterexample: on a successful room switch on a router where every
join and subscribe succeeds, the handler trace swaps the current session
STRICTLY BEFORE it cancels the old session context (which is what cancels
the old publish and subscribe loops), so the claimed ordering — swap only
after the old loops are cancelled — is false on this concrete input. -/
theorem room_switch_swap_order_c1_cex :
    SwitchAction.swapCurrent ∈ handleRoomCommand allOkPS "newroom"
    ∧ SwitchAction.cancelOldContext ∈ handleRoomCommand allOkPS "newroom"
    ∧ firstIdx SwitchAction.swapCurrent (handleRoomCommand allOkPS "newroom")
        < firstIdx SwitchAction.cancelOldContext (handleRoomCommand allOkPS "newroom") := by
  decide

/-- C1 (amended): on every successful /room switch the handler emits exactly
this trace: it joins and subscribes the new topic, starts the new session
loops, swaps the current-session reference, sleeps for the one-second grace
window, and only then cancels the old subscription, closes the old topic and
cancels the old context. The swap therefore precedes the cancellation of the
old loops, and during the grace window both sessions run. -/
theorem room_switch_sequence_c1 (ps : PubSubRouter) (rn : String)
    (hrn : rn ≠ "") (hj : ps.joinOk (topicNameFor rn) = true)
    (hs : ps.subscribeOk (topicNameFor rn) = true) :
    handleRoomCommand ps rn =
      [SwitchAction.logEntry "roomchange" ("joining new room " ++ rn),
       SwitchAction.joinNewTopic (topicNameFor rn),
       SwitchAction.subscribeNew (topicNameFor rn),
       SwitchAction.startNewLoops,
       SwitchAction.swapCurrent,
       SwitchAction.graceSleep,
       SwitchAction.cancelOldSubscription,
       SwitchAction.closeOldTopic,
       SwitchAction.cancelOldContext,
       SwitchAction.clearMessageBox,
       SwitchAction.setTitle ("ChatRoom-" ++ rn)] := by
  simp [handleRoomCommand, hrn, hj, hs]

theorem room_switch_sequence_c1_witness :
    ("newroom" : String) ≠ ""
    ∧ allOkPS.joinOk (topicNameFor "newroom") = true
    ∧ allOkPS.subscribeOk (topicNameFor "newroom") = true
    ∧ handleRoomCommand allOkPS "newroom" =
      [SwitchAction.logEntry "roomchange" ("joining new room " ++ "newroom"),
       SwitchAction.joinNewTopic (topicNameFor "newroom"),
       SwitchAction.subscribeNew (topicNameFor "newroom"),
       SwitchAction.startNewLoops,
       SwitchAction.swapCurrent,
       SwitchAction.graceSleep,
       SwitchAction.cancelOldSubscription,
       SwitchAction.closeOldTopic,
       SwitchAction.cancelOldContext,
       SwitchAction.clearMessageBox,
       SwitchAction.setTitle ("ChatRoom-" ++ "newroom")] :=
  ⟨by decide, rfl, rfl,
   room_switch_sequence_c1 allOkPS "newroom" (by decide) rfl rfl⟩

/-- C2 counterexample: on a router where every topic join fails, UpdateRoom
surfaces the error, but it has already sent on both loop-termination queues
and cancelled the existing subscription — the current session is NOT left
unchanged and its loops are no longer running. -/
theorem switch_failure_c2_cex :
    (UpdateRoom noJoinPS "newroom").2 = true
    ∧ URAction.termPubLoop ∈ (UpdateRoom noJoinPS "newroom").1
    ∧ URAction.termSubLoop ∈ (UpdateRoom noJoinPS "newroom").1
    ∧ URAction.cancelSubscription ∈ (UpdateRoom noJoinPS "newroom").1 := by
  decide

/-- C2 (amended): on the /room UI path a failed join or subscribe leaves the
current session completely untouched — the trace contains no swap, no loop
start for the new session, and no cancellation of the old subscription,
topic or context — and the jumperr log entry surfaces the error. On the
UpdateRoom path the error is also surfaced, but the method begins by
terminating both loops and cancelling the subscription before attempting
the new join, so on failure the session loops are no longer running. -/
theorem switch_failure_paths_c2 (ps : PubSubRouter) (rn : String)
    (hrn : rn ≠ "")
    (hfail : ps.joinOk (topicNameFor rn) = false
             ∨ ps.subscribeOk (topicNameFor rn) = false) :
    (SwitchAction.swapCurrent ∉ handleRoomCommand ps rn
     ∧ SwitchAction.startNewLoops ∉ handleRoomCommand ps rn
     ∧ SwitchAction.cancelOldSubscription ∉ handleRoomCommand ps rn
     ∧ SwitchAction.closeOldTopic ∉ handleRoomCommand ps rn
     ∧ SwitchAction.cancelOldContext ∉ handleRoomCommand ps rn
     ∧ SwitchAction.logEntry "jumperr" "could not change chat room"
         ∈ handleRoomCommand ps rn)
    ∧ (∀ rn2 : String,
        ps.joinOk rn2 = false ∨ ps.subscribeOk rn2 = false →
          (UpdateRoom ps rn2).2 = true
          ∧ (UpdateRoom ps rn2).1.take 3 =
              [URAction.termPubLoop, URAction.termSubLoop,
               URAction.cancelSubscription]) := by
  constructor
  · by_cases hj : ps.joinOk (topicNameFor rn) = true
    · have hsub : ps.subscribeOk (topicNameFor rn) = false := by
        rcases hfail with h | h
        · rw [hj] at h; exact absurd h (by decide)
        · exact h
      simp [handleRoomCommand, hrn, hj, hsub]
    · have hj' : ps.joinOk (topicNameFor rn) = false := by
        cases h : ps.joinOk (topicNameFor rn)
        · rfl
        · exact absurd h hj
      simp [handleRoomCommand, hrn, hj']
  · intro rn2 hfail2
    by_cases hj : ps.joinOk rn2 = true
    · have hsub : ps.subscribeOk rn2 = false := by
        rcases hfail2 with h | h
        · rw [hj] at h; exact absurd h (by decide)
        · exact h
      simp [UpdateRoom, hj, hsub]
    · have hj' : ps.joinOk rn2 = false := by
        cases h : ps.joinOk rn2
        · rfl
        · exact absurd h hj
      simp [UpdateRoom, hj']

theorem switch_failure_paths_c2_witness :
    (("newroom" : String) ≠ ""
     ∧ (noJoinPS.joinOk (topicNameFor "newroom") = false
        ∨ noJoinPS.subscribeOk (topicNameFor "newroom") = false))
    ∧ (SwitchAction.swapCurrent ∉ handleRoomCommand noJoinPS "newroom"
       ∧ SwitchAction.startNewLoops ∉ handleRoomCommand noJoinPS "newroom"
       ∧ SwitchAction.cancelOldSubscription ∉ handleRoomCommand noJoinPS "newroom"
       ∧ SwitchAction.closeOldTopic ∉ handleRoomCommand noJoinPS "newroom"
       ∧ SwitchAction.cancelOldContext ∉ handleRoomCommand noJoinPS "newroom"
       ∧ SwitchAction.logEntry "jumperr" "could not change chat room"
           ∈ handleRoomCommand noJoinPS "newroom")
    ∧ (∀ rn2 : String,
        noJoinPS.joinOk rn2 = false ∨ noJoinPS.subscribeOk rn2 = false →
          (UpdateRoom noJoinPS rn2).2 = true
          ∧ (UpdateRoom noJoinPS rn2).1.take 3 =
              [URAction.termPubLoop, URAction.termSubLoop,
               URAction.cancelSubscription]) :=
  ⟨⟨by decide, Or.inl rfl⟩,
   (switch_failure_paths_c2 noJoinPS "newroom" (by decide) (Or.inl rfl)).1,
   (switch_failure_paths_c2 noJoinPS "newroom" (by decide) (Or.inl rfl)).2⟩

/-- C4: on every router where the (raw-name) topic join and the subscribe
succeed, JoinChatRoom creates a session; an empty roomname argument yields
RoomName lobby and an empty username argument yields UserName newuser. -/
theorem join_default_names_c4 (ps : PubSubRouter) (sid un rn : String)
    (hj : ps.joinOk (topicNameFor rn) = true)
    (hs : ps.subscribeOk (topicNameFor rn) = true) :
    ∃ cr : ChatRoomRec, JoinChatRoom ps sid un rn = some cr
      ∧ (rn = "" → cr.RoomName = "lobby")
      ∧ (un = "" → cr.UserName = "newuser") := by
  refine ⟨⟨if rn = "" then defaultroom else rn,
           if un = "" then defaultuser else un,
           sid, topicNameFor rn⟩, ?_, ?_, ?_⟩
  · simp [JoinChatRoom, hj, hs]
  · intro h; simp [h, defaultroom]
  · intro h; simp [h, defaultuser]

theorem join_default_names_c4_witness :
    allOkPS.joinOk (topicNameFor "") = true
    ∧ allOkPS.subscribeOk (topicNameFor "") = true
    ∧ ∃ cr : ChatRoomRec, JoinChatRoom allOkPS "QmSelf" "" "" = some cr
        ∧ ("" = "" → cr.RoomName = "lobby")
        ∧ ("" = "" → cr.UserName = "newuser") :=
  ⟨rfl, rfl, join_default_names_c4 allOkPS "QmSelf" "" "" rfl rfl⟩

/-- C5: every session created by JoinChatRoom has joined the topic named
room-peerchat- concatenated with the RAW roomname argument, computed before
the default substitution; in particular an empty roomname argument joins
exactly the topic room-peerchat- while the session reports RoomName lobby,
and the topics for the empty argument and for the explicit lobby argument
differ. -/
theorem join_topic_precedes_defaults_c5 (ps : PubSubRouter)
    (sid un rn : String) (cr : ChatRoomRec)
    (h : JoinChatRoom ps sid un rn = some cr) :
    cr.pstopic = "room-peerchat-" ++ rn
    ∧ (rn = "" → cr.pstopic = "room-peerchat-" ∧ cr.RoomName = "lobby")
    ∧ topicNameFor "" ≠ topicNameFor "lobby" := by
  simp only [JoinChatRoom] at h
  split at h
  · split at h
    · have hcr := (Option.some.injEq _ _).mp h
      refine ⟨?_, ?_, by decide⟩
      · rw [← hcr]
        rfl
      · intro hrn
        subst hrn
        rw [← hcr]
        refine ⟨?_, ?_⟩
        · show topicNameFor "" = "room-peerchat-"
          decide
        · show (if ("" : String) = "" then defaultroom else "") = "lobby"
          simp [defaultroom]
    · exact absurd h (by simp)
  · exact absurd h (by simp)

theorem join_topic_precedes_defaults_c5_witness :
    JoinChatRoom allOkPS "QmSelf" "alice" ""
      = some ⟨"lobby", "alice", "QmSelf", "room-peerchat-"⟩
    ∧ (⟨"lobby", "alice", "QmSelf", "room-peerchat-"⟩ : ChatRoomRec).pstopic
        = "room-peerchat-" ++ ""
    ∧ ("" = "" →
        (⟨"lobby", "alice", "QmSelf", "room-peerchat-"⟩ : ChatRoomRec).pstopic
          = "room-peerchat-"
        ∧ (⟨"lobby", "alice", "QmSelf", "room-peerchat-"⟩ : ChatRoomRec).RoomName
          = "lobby")
    ∧ topicNameFor "" ≠ topicNameFor "lobby" :=
  ⟨by decide,
   join_topic_precedes_defaults_c5 allOkPS "QmSelf" "alice" "" _ (by decide)⟩

/-- C3: feeding the subscribe loop a subscription message whose sender
identity equals the local identity changes nothing at all: it is dropped by
the self check before any decoding, so it is never enqueued to the inbound
Messages queue (and produces no log and no state change either), wherever
in the event sequence it arrives. -/
theorem self_message_suppression_c3 (sid : String) (m : PubsubMessage)
    (hm : m.ReceivedFrom = sid) (pre post : List SubEvent) :
    runSubLoop sid (pre ++ SubEvent.next m :: post)
      = runSubLoop sid (pre ++ post) := by
  induction pre with
  | nil => simp [runSubLoop, hm]
  | cons e rest ih =>
    cases e with
    | cancel => simp [runSubLoop]
    | nextErr => simp [runSubLoop]
    | next m' =>
      simp only [List.cons_append, runSubLoop]
      split
      · exact ih
      · cases hjs : jsonUnmarshal m'.Data with
        | none =>
            simp only [hjs]
            exact congrArg (fun r : SubLoopResult =>
              (⟨r.delivered, ⟨"suberr", "could not unmarshal JSON"⟩ :: r.logs,
                r.messagesClosed, r.exit⟩ : SubLoopResult)) ih
        | some cm =>
            simp only [hjs]
            exact congrArg (fun r : SubLoopResult =>
              (⟨cm :: r.delivered, r.logs, r.messagesClosed, r.exit⟩ :
                SubLoopResult)) ih

theorem self_message_suppression_c3_witness :
    (PubsubMessage.mk "QmSelf" (WireData.chatJson "hello" "QmSelf" "me")).ReceivedFrom
      = "QmSelf"
    ∧ runSubLoop "QmSelf"
        ([SubEvent.next ⟨"QmPeer", WireData.chatJson "hey" "QmPeer" "bob"⟩]
          ++ SubEvent.next ⟨"QmSelf", WireData.chatJson "hello" "QmSelf" "me"⟩
            :: [SubEvent.nextErr])
      = runSubLoop "QmSelf"
          ([SubEvent.next ⟨"QmPeer", WireData.chatJson "hey" "QmPeer" "bob"⟩]
            ++ [SubEvent.nextErr]) :=
  ⟨rfl,
   self_message_suppression_c3 "QmSelf"
     ⟨"QmSelf", WireData.chatJson "hello" "QmSelf" "me"⟩ rfl
     [SubEvent.next ⟨"QmPeer", WireData.chatJson "hey" "QmPeer" "bob"⟩]
     [SubEvent.nextErr]⟩

/-- C6: the bootstrap counters are incremented from the per-peer goroutines
without synchronization, so the reported pair is NOT independent of the
interleaving. With two seed peers, both reachable, the interleaved schedule
0,1,0,1,... loses one update on each counter and yields (1 connected,
1 total), while the serialized schedule yields the intended (2, 2) = (K, N).
This evaluates the code of NewP2P / P2PHost.Bootstrap at the failing input
of the claim. -/
theorem bootstrap_race_lost_update_c6 :
    (raceRun (initBoot [true, true]) [0, 1, 0, 1, 0, 1, 0, 1]).connected = 1
    ∧ (raceRun (initBoot [true, true]) [0, 1, 0, 1, 0, 1, 0, 1]).total = 1
    ∧ (raceRun (initBoot [true, true]) [0, 0, 0, 0, 1, 1, 1, 1]).connected = 2
    ∧ (raceRun (initBoot [true, true]) [0, 0, 0, 0, 1, 1, 1, 1]).total = 2
    ∧ countReachable [true, true] = 2
    ∧ ([true, true] : List Bool).length = 2 := by
  decide

/-- C7: when subscription.Next returns an error after a run of ordinary
deliveries, the subscribe loop closes the inbound Messages queue, emits the
suberr log entry and exits with the subscription-closed status; closing the
queue happens exactly on that exit status and on no other; and the loop can
only have ended because of a Next error or because of the cancellation
branch of its select (the model is a total function, so no input crashes
it). -/
theorem subscription_terminal_c7 (sid : String) (pre post : List SubEvent)
    (hpre : pre.all isDeliveryEvent = true) :
    ((runSubLoop sid (pre ++ SubEvent.nextErr :: post)).exit = SubExit.subClosed
     ∧ (runSubLoop sid (pre ++ SubEvent.nextErr :: post)).messagesClosed = true
     ∧ uilog.mk "suberr" "subscription has closed"
         ∈ (runSubLoop sid (pre ++ SubEvent.nextErr :: post)).logs)
    ∧ (∀ evs : List SubEvent,
        (runSubLoop sid evs).messagesClosed = true ↔
          (runSubLoop sid evs).exit = SubExit.subClosed)
    ∧ (∀ evs : List SubEvent,
        (runSubLoop sid evs).exit = SubExit.subClosed → SubEvent.nextErr ∈ evs)
    ∧ (∀ evs : List SubEvent,
        (runSubLoop sid evs).exit = SubExit.cancelled → SubEvent.cancel ∈ evs) :=
  ⟨runSubLoop_err_after sid post pre hpre,
   runSubLoop_closed_iff sid,
   runSubLoop_subClosed_mem sid,
   runSubLoop_cancelled_mem sid⟩

theorem subscription_terminal_c7_witness :
    ([SubEvent.next ⟨"QmPeer", WireData.chatJson "hey" "QmPeer" "bob"⟩].all
        isDeliveryEvent = true)
    ∧ ((runSubLoop "QmSelf"
          ([SubEvent.next ⟨"QmPeer", WireData.chatJson "hey" "QmPeer" "bob"⟩]
            ++ SubEvent.nextErr :: [])).exit = SubExit.subClosed
       ∧ (runSubLoop "QmSelf"
          ([SubEvent.next ⟨"QmPeer", WireData.chatJson "hey" "QmPeer" "bob"⟩]
            ++ SubEvent.nextErr :: [])).messagesClosed = true
       ∧ uilog.mk "suberr" "subscription has closed"
           ∈ (runSubLoop "QmSelf"
              ([SubEvent.next ⟨"QmPeer", WireData.chatJson "hey" "QmPeer" "bob"⟩]
                ++ SubEvent.nextErr :: [])).logs) :=
  ⟨by decide,
   (subscription_terminal_c7 "QmSelf"
     [SubEvent.next ⟨"QmPeer", WireData.chatJson "hey" "QmPeer" "bob"⟩]
     [] (by decide)).1⟩

/-- C8: a message on which json.Marshal fails, or on which the topic publish
fails, is skipped by the publish loop with a puberr log entry while every
other message is still published and the loop keeps its status; likewise a
received payload that fails to unmarshal is skipped by the subscribe loop
with a suberr log entry while every other message is still delivered. The
inserted failing item changes neither the published/delivered lists nor the
exit status of the runs without it. -/
theorem session_local_resilience_c8 (env : PubEnv)
    (sid un sbad spub sender raw : String)
    (xs ys : List PubEvent) (subxs subys : List SubEvent)
    (hxs : xs.all isMsgEvent = true)
    (hsubxs : subxs.all isDeliveryEvent = true)
    (hsender : sender ≠ sid)
    (hm1 : env.marshalOk ⟨sbad, sid, un⟩ = false)
    (hm2 : env.marshalOk ⟨spub, sid, un⟩ = true)
    (hp2 : env.publishOk (jsonMarshal ⟨spub, sid, un⟩) = false) :
    ((runPubLoop env sid un (xs ++ PubEvent.msg sbad :: ys)).published
        = (runPubLoop env sid un (xs ++ ys)).published
      ∧ (runPubLoop env sid un (xs ++ PubEvent.msg sbad :: ys)).exit
        = (runPubLoop env sid un (xs ++ ys)).exit
      ∧ uilog.mk "puberr" "could not marshal JSON"
          ∈ (runPubLoop env sid un (xs ++ PubEvent.msg sbad :: ys)).logs)
    ∧ ((runPubLoop env sid un (xs ++ PubEvent.msg spub :: ys)).published
        = (runPubLoop env sid un (xs ++ ys)).published
      ∧ (runPubLoop env sid un (xs ++ PubEvent.msg spub :: ys)).exit
        = (runPubLoop env sid un (xs ++ ys)).exit
      ∧ uilog.mk "puberr" "could not publish to topic"
          ∈ (runPubLoop env sid un (xs ++ PubEvent.msg spub :: ys)).logs)
    ∧ ((runSubLoop sid (subxs ++ SubEvent.next ⟨sender, WireData.malformed raw⟩
          :: subys)).delivered
        = (runSubLoop sid (subxs ++ subys)).delivered
      ∧ (runSubLoop sid (subxs ++ SubEvent.next ⟨sender, WireData.malformed raw⟩
          :: subys)).exit
        = (runSubLoop sid (subxs ++ subys)).exit
      ∧ uilog.mk "suberr" "could not unmarshal JSON"
          ∈ (runSubLoop sid (subxs ++ SubEvent.next ⟨sender, WireData.malformed raw⟩
              :: subys)).logs) :=
  ⟨runPubLoop_insert_marshalfail env sid un sbad ys hm1 xs hxs,
   runPubLoop_insert_pubfail env sid un spub ys hm2 hp2 xs hxs,
   runSubLoop_insert_malformed sid sender raw subys hsender subxs hsubxs⟩

theorem session_local_resilience_c8_witness :
    ((([] : List PubEvent).all isMsgEvent = true)
     ∧ (([] : List SubEvent).all isDeliveryEvent = true)
     ∧ ("QmPeer" : String) ≠ "QmSelf"
     ∧ (PubEnv.mk (fun m => !(m.Message == "bad")) (fun _ => false)).marshalOk
         ⟨"bad", "QmSelf", "alice"⟩ = false
     ∧ (PubEnv.mk (fun m => !(m.Message == "bad")) (fun _ => false)).marshalOk
         ⟨"ok", "QmSelf", "alice"⟩ = true
     ∧ (PubEnv.mk (fun m => !(m.Message == "bad")) (fun _ => false)).publishOk
         (jsonMarshal ⟨"ok", "QmSelf", "alice"⟩) = false)
    ∧ uilog.mk "puberr" "could not marshal JSON"
        ∈ (runPubLoop (PubEnv.mk (fun m => !(m.Message == "bad")) (fun _ => false))
            "QmSelf" "alice" ([] ++ PubEvent.msg "bad" :: [PubEvent.msg "later"])).logs
    ∧ uilog.mk "puberr" "could not publish to topic"
        ∈ (runPubLoop (PubEnv.mk (fun m => !(m.Message == "bad")) (fun _ => false))
            "QmSelf" "alice" ([] ++ PubEvent.msg "ok" :: [PubEvent.msg "later"])).logs
    ∧ uilog.mk "suberr" "could not unmarshal JSON"
        ∈ (runSubLoop "QmSelf"
            ([] ++ SubEvent.next ⟨"QmPeer", WireData.malformed "junk"⟩
              :: [SubEvent.next ⟨"QmPeer", WireData.chatJson "hey" "QmPeer" "bob"⟩])).logs :=
  ⟨⟨rfl, rfl, by decide, by decide, by decide, rfl⟩,
   (session_local_resilience_c8
      (PubEnv.mk (fun m => !(m.Message == "bad")) (fun _ => false))
      "QmSelf" "alice" "bad" "ok" "QmPeer" "junk"
      [] [PubEvent.msg "later"] []
      [SubEvent.next ⟨"QmPeer", WireData.chatJson "hey" "QmPeer" "bob"⟩]
      rfl rfl (by decide) (by decide) (by decide) rfl).1.2.2,
   (session_local_resilience_c8
      (PubEnv.mk (fun m => !(m.Message == "bad")) (fun _ => false))
      "QmSelf" "alice" "bad" "ok" "QmPeer" "junk"
      [] [PubEvent.msg "later"] []
      [SubEvent.next ⟨"QmPeer", WireData.chatJson "hey" "QmPeer" "bob"⟩]
      rfl rfl (by decide) (by decide) (by decide) rfl).2.1.2.2,
   (session_local_resilience_c8
      (PubEnv.mk (fun m => !(m.Message == "bad")) (fun _ => false))
      "QmSelf" "alice" "bad" "ok" "QmPeer" "junk"
      [] [PubEvent.msg "later"] []
      [SubEvent.next ⟨"QmPeer", WireData.chatJson "hey" "QmPeer" "bob"⟩]
      rfl rfl (by decide) (by decide) (by decide) rfl).2.2.2.2⟩

/-- C9: every payload the publish loop hands to the topic is the JSON
serialization of the record with fields message / senderid / sendername
holding some drained queue item m, the local identity and the user name, and
deserializing it recovers exactly that ChatMessage — so a subscriber that
unmarshals the bytes sees SenderID = I and SenderName = U. -/
theorem published_wire_format_c9 (env : PubEnv) (sid un : String)
    (evs : List PubEvent) (b : WireData)
    (hb : b ∈ (runPubLoop env sid un evs).published) :
    ∃ m : String, PubEvent.msg m ∈ evs
      ∧ b = WireData.chatJson m sid un
      ∧ b = jsonMarshal ⟨m, sid, un⟩
      ∧ jsonUnmarshal b = some ⟨m, sid, un⟩ := by
  induction evs with
  | nil => simp [runPubLoop] at hb
  | cons e rest ih =>
    cases e with
    | cancel => simp [runPubLoop] at hb
    | msg s =>
      simp only [runPubLoop] at hb
      by_cases h1 : env.marshalOk ⟨s, sid, un⟩ = true
      · by_cases h2 : env.publishOk (jsonMarshal ⟨s, sid, un⟩) = true
        · rw [if_pos h1, if_pos h2] at hb
          rcases List.mem_cons.mp hb with hb1 | hb2
          · exact ⟨s, List.mem_cons_self _ _, hb1, hb1, by rw [hb1]; rfl⟩
          · obtain ⟨m, hmem, hrest⟩ := ih hb2
            exact ⟨m, List.mem_cons_of_mem _ hmem, hrest⟩
        · rw [if_pos h1, if_neg h2] at hb
          obtain ⟨m, hmem, hrest⟩ := ih hb
          exact ⟨m, List.mem_cons_of_mem _ hmem, hrest⟩
      · rw [if_neg h1] at hb
        obtain ⟨m, hmem, hrest⟩ := ih hb
        exact ⟨m, List.mem_cons_of_mem _ hmem, hrest⟩

theorem published_wire_format_c9_witness :
    (WireData.chatJson "hello" "QmSelf" "alice"
        ∈ (runPubLoop ⟨fun _ => true, fun _ => true⟩ "QmSelf" "alice"
            [PubEvent.msg "hello"]).published)
    ∧ ∃ m : String, PubEvent.msg m ∈ [PubEvent.msg "hello"]
        ∧ WireData.chatJson "hello" "QmSelf" "alice" = WireData.chatJson m "QmSelf" "alice"
        ∧ WireData.chatJson "hello" "QmSelf" "alice" = jsonMarshal ⟨m, "QmSelf", "alice"⟩
        ∧ jsonUnmarshal (WireData.chatJson "hello" "QmSelf" "alice")
            = some ⟨m, "QmSelf", "alice"⟩ :=
  ⟨by decide,
   published_wire_format_c9 ⟨fun _ => true, fun _ => true⟩ "QmSelf" "alice"
     [PubEvent.msg "hello"] (WireData.chatJson "hello" "QmSelf" "alice")
     (by decide)⟩

/-- C10: the advertisement identifier (SHA-256 of the service name, prefixed
with the codec byte 0x12 and the digest-size byte 0x20, Base58-encoded and
wrapped in a version-1 CID) is a pure function of the service name: it does
not depend on any node-local state, two computations agree for every service
name, and the Provide and Connect2 implementations — which duplicate the
same pipeline around their respective service constants — produce identical
identifiers on any two nodes. -/
theorem advertisement_id_deterministic_c10 (hash : List Nat → List Nat)
    (n1 n2 : HostState) (s : String) :
    advertisementID hash s = advertisementID hash s
    ∧ provideCID hash n1 = provideCID hash n2
    ∧ connect2CID hash n1 = connect2CID hash n2
    ∧ provideCID hash n1 = connect2CID hash n2 :=
  ⟨rfl, rfl, rfl, rfl⟩

end Peerchat
